import Mathlib

/-!
Shallow embedding of the chat relay backend (src/backend/app), centred on
the endpoints in src/backend/app/api/v1/endpoints/chat.py: the callback
resolver `n8n_callback`, `send_message`, `update_session` and
`delete_session`, together with the data model from
src/backend/app/models/chat.py and the request schemas from
src/backend/app/schemas/chat.py.

Python values obtained from JSON bodies are modelled by the inductive
`JVal`.  JSON numbers are modelled as integers: documents containing
fractional or exponent number forms are treated as unparseable by the
embedded `jsonLoads`; none of the verified properties involve such
payloads.  Machine-level details of the HTTP/database stack (FastAPI
routing, SQLAlchemy connection handling) are outside src/ and are
modelled per the specification: each request runs in a scoped
transaction whose effects become durable at the single `commit` point,
so a handler that raises before committing leaves the store unchanged.
-/

/-- A Python value arising from a parsed JSON document. -/
inductive JVal where
  | null : JVal
  | bool : Bool → JVal
  | num : Int → JVal
  | str : String → JVal
  | arr : List JVal → JVal
  | obj : List (String × JVal) → JVal

/-- The apostrophe character, written by code so that string literals in
this file stay free of quote characters. -/
def apos : Char := Char.ofNat 39

/-- Opening brace character. -/
def lbrace : Char := Char.ofNat 123

/-- Closing brace character. -/
def rbrace : Char := Char.ofNat 125

/-- Opening brace as a one-character string. -/
def lbraceS : String := "\x7b"

/-- Closing brace as a one-character string. -/
def rbraceS : String := "\x7d"

/-- Python truthiness of a parsed-JSON value: `None`, `False`, `0`, the
empty string, the empty list and the empty dict are falsy. -/
def pyTruthy : JVal → Bool
  | .null => false
  | .bool b => b
  | .num n => n != 0
  | .str s => s != ""
  | .arr xs => !xs.isEmpty
  | .obj kvs => !kvs.isEmpty

/-- Python `dict.get`: the binding of the key, last writer wins (as for a
dict built by `json.loads`, where a duplicated key keeps its last value). -/
def pyGet (kvs : List (String × JVal)) (k : String) : Option JVal :=
  kvs.foldl (fun acc p => if p.1 = k then some p.2 else acc) none

/-- A chain `a or b or ... or z` of Python `or` over optional lookups:
the first truthy operand, else the last operand unchanged. -/
def orChain : List (Option JVal) → Option JVal
  | [] => none
  | [x] => x
  | x :: y :: rest =>
    match x with
    | some v => if pyTruthy v then some v else orChain (y :: rest)
    | none => orChain (y :: rest)

/-- Whitespace stripped by Python `str.strip()` (ASCII subset). -/
def isPyWs (c : Char) : Bool :=
  c = ' ' || c = '\t' || c = '\n' || c = '\r' || c = Char.ofNat 11 || c = Char.ofNat 12

/-- Strip `isPyWs` characters from both ends of a character list. -/
def stripChars (cs : List Char) : List Char :=
  ((cs.dropWhile isPyWs).reverse.dropWhile isPyWs).reverse

/-- Python `str.strip()`. -/
def pyStrip (s : String) : String := ⟨stripChars s.data⟩

/-- Python `str.split(chr)` with an explicit one-character separator:
splits at every occurrence, keeping empty pieces. -/
def splitOnChar (sep : Char) : List Char → List (List Char)
  | [] => [[]]
  | c :: rest =>
    let r := splitOnChar sep rest
    if c = sep then [] :: r
    else
      match r with
      | h :: t => (c :: h) :: t
      | [] => [[c]]

/-- Python `sep.join(...)` for a one-character separator. -/
def joinWithChar (sep : Char) : List (List Char) → List Char
  | [] => []
  | [x] => x
  | x :: y :: rest => x ++ sep :: joinWithChar sep (y :: rest)

/-- Does the second list start with the first? -/
def listStarts : List Char → List Char → Bool
  | [], _ => true
  | _ :: _, [] => false
  | p :: ps, c :: cs => p = c && listStarts ps cs

/-- Escape one character for Python `repr` of a string quoted by `q`. -/
def pyEscapeChar (q c : Char) : List Char :=
  if c = '\\' then ['\\', '\\']
  else if c = q then ['\\', q]
  else if c = '\n' then ['\\', 'n']
  else if c = '\r' then ['\\', 'r']
  else if c = '\t' then ['\\', 't']
  else [c]

/-- Python `repr` of a string: quoted with apostrophes, or with double
quotes when the string contains an apostrophe but no double quote;
common escapes applied (printable characters modelled). -/
def pyReprStr (s : String) : String :=
  let hasApos := s.data.contains apos
  let hasDq := s.data.contains '"'
  let q : Char := if hasApos && !hasDq then '"' else apos
  ⟨q :: (s.data.flatMap (pyEscapeChar q)) ++ [q]⟩

mutual

/-- Python `repr` of a parsed-JSON value (also `str()` for non-string
values): `None`/`True`/`False`, decimal integers, quoted strings,
bracketed lists and braced dicts with comma-space separators. -/
def pyRepr : JVal → String
  | .null => "None"
  | .bool b => if b then "True" else "False"
  | .num n => toString n
  | .str s => pyReprStr s
  | .arr xs => "[" ++ pyReprArr xs ++ "]"
  | .obj kvs => lbraceS ++ pyReprObj kvs ++ rbraceS

/-- Comma-space separated `repr` of list elements. -/
def pyReprArr : List JVal → String
  | [] => ""
  | [x] => pyRepr x
  | x :: y :: rest => pyRepr x ++ ", " ++ pyReprArr (y :: rest)

/-- Comma-space separated `repr` of dict entries. -/
def pyReprObj : List (String × JVal) → String
  | [] => ""
  | [(k, v)] => pyReprStr k ++ ": " ++ pyRepr v
  | (k, v) :: y :: rest => pyReprStr k ++ ": " ++ pyRepr v ++ ", " ++ pyReprObj (y :: rest)

end

/-- Python `str()` of a parsed-JSON value: a string is itself, any other
value renders as its `repr`. -/
def pyStr : JVal → String
  | .str s => s
  | v => pyRepr v

/-! ### Embedded model of `json.loads` (Python stdlib)

Recursive-descent parser with explicit fuel.  Objects deduplicate keys
with last-value-wins, keeping first-insertion order, as Python dicts do.
Fractional and exponent number forms are not modelled (see the header
comment): such documents are treated as unparseable. -/

/-- JSON document whitespace. -/
def isJsonWs (c : Char) : Bool :=
  c = ' ' || c = '\t' || c = '\n' || c = '\r'

/-- Value of a hexadecimal digit. -/
def hexVal (c : Char) : Option Nat :=
  if '0' ≤ c && c ≤ '9' then some (c.toNat - 48)
  else if 'a' ≤ c && c ≤ 'f' then some (c.toNat - 87)
  else if 'A' ≤ c && c ≤ 'F' then some (c.toNat - 55)
  else none

/-- One-character JSON string escapes. -/
def escChar (c : Char) : Option Char :=
  if c = '"' then some '"'
  else if c = '\\' then some '\\'
  else if c = '/' then some '/'
  else if c = 'b' then some (Char.ofNat 8)
  else if c = 'f' then some (Char.ofNat 12)
  else if c = 'n' then some '\n'
  else if c = 'r' then some '\r'
  else if c = 't' then some '\t'
  else none

/-- Parse the body of a JSON string after the opening quote; returns the
decoded characters and the input after the closing quote. -/
def parseStrBody : Nat → List Char → Option (List Char × List Char)
  | 0, _ => none
  | _ + 1, [] => none
  | fuel + 1, c :: rest =>
    if c = '"' then some ([], rest)
    else if c = '\\' then
      match rest with
      | [] => none
      | e :: rest2 =>
        if e = 'u' then
          match rest2 with
          | a :: b :: c2 :: d :: rest3 =>
            match hexVal a, hexVal b, hexVal c2, hexVal d with
            | some ha, some hb, some hc, some hd =>
              match parseStrBody fuel rest3 with
              | some (s, r) => some (Char.ofNat (ha * 4096 + hb * 256 + hc * 16 + hd) :: s, r)
              | none => none
            | _, _, _, _ => none
          | _ => none
        else
          match escChar e with
          | some ec =>
            match parseStrBody fuel rest2 with
            | some (s, r) => some (ec :: s, r)
            | none => none
          | none => none
    else if c.toNat < 32 then none
    else
      match parseStrBody fuel rest with
      | some (s, r) => some (c :: s, r)
      | none => none

/-- Decimal digit test. -/
def isDigitCh (c : Char) : Bool := '0' ≤ c && c ≤ '9'

/-- Numeric value of a digit run. -/
def digitsToNat (cs : List Char) : Nat :=
  cs.foldl (fun acc c => acc * 10 + (c.toNat - 48)) 0

/-- Parse a JSON integer literal (optional minus, no leading zeros,
no fraction or exponent). -/
def parseNum (cs : List Char) : Option (JVal × List Char) :=
  let (neg, cs1) :=
    match cs with
    | '-' :: rest => (true, rest)
    | _ => (false, cs)
  match cs1 with
  | [] => none
  | d :: rest =>
    if !isDigitCh d then none
    else if d = '0' && (match rest with | r :: _ => isDigitCh r | [] => false) then none
    else
      let digits := d :: rest.takeWhile isDigitCh
      let rest' := rest.dropWhile isDigitCh
      match rest' with
      | '.' :: _ => none
      | 'e' :: _ => none
      | 'E' :: _ => none
      | _ =>
        let n : Int := Int.ofNat (digitsToNat digits)
        some (.num (if neg then -n else n), rest')

/-- Insert a key into an object under construction: last value wins,
first-insertion order kept (Python dict semantics). -/
def insertKV (kvs : List (String × JVal)) (k : String) (v : JVal) : List (String × JVal) :=
  if (kvs.find? (fun p => p.1 = k)).isSome then
    kvs.map (fun p => if p.1 = k then (p.1, v) else p)
  else kvs ++ [(k, v)]

mutual

/-- Parse one JSON value, skipping leading whitespace. -/
def parseVal : Nat → List Char → Option (JVal × List Char)
  | 0, _ => none
  | fuel + 1, cs0 =>
    let cs := cs0.dropWhile isJsonWs
    match cs with
    | [] => none
    | c :: rest =>
      if c = '"' then
        match parseStrBody (fuel + 1) rest with
        | some (s, r) => some (.str ⟨s⟩, r)
        | none => none
      else if c = lbrace then
        let r1 := rest.dropWhile isJsonWs
        match r1 with
        | c2 :: r2 => if c2 = rbrace then some (.obj [], r2) else parseMembers fuel r1 []
        | [] => none
      else if c = '[' then
        let r1 := rest.dropWhile isJsonWs
        match r1 with
        | ']' :: r2 => some (.arr [], r2)
        | _ => parseItems fuel r1 []
      else if listStarts "null".data cs then some (.null, cs.drop 4)
      else if listStarts "true".data cs then some (.bool true, cs.drop 4)
      else if listStarts "false".data cs then some (.bool false, cs.drop 5)
      else parseNum cs

/-- Parse the members of a JSON object after the opening brace (at least
one member present). -/
def parseMembers : Nat → List Char → List (String × JVal) → Option (JVal × List Char)
  | 0, _, _ => none
  | fuel + 1, cs, acc =>
    match cs.dropWhile isJsonWs with
    | [] => none
    | c :: rest =>
      if c = '"' then
        match parseStrBody (fuel + 1) rest with
        | some (k, r1) =>
          match r1.dropWhile isJsonWs with
          | ':' :: r2 =>
            match parseVal fuel r2 with
            | some (v, r3) =>
              let acc2 := insertKV acc ⟨k⟩ v
              match r3.dropWhile isJsonWs with
              | ',' :: r4 => parseMembers fuel r4 acc2
              | c2 :: r4 => if c2 = rbrace then some (.obj acc2, r4) else none
              | [] => none
            | none => none
          | _ => none
        | none => none
      else none

/-- Parse the items of a JSON array after the opening bracket (at least
one item present). -/
def parseItems : Nat → List Char → List JVal → Option (JVal × List Char)
  | 0, _, _ => none
  | fuel + 1, cs, acc =>
    match parseVal fuel cs with
    | some (v, r1) =>
      let acc2 := acc ++ [v]
      match r1.dropWhile isJsonWs with
      | ',' :: r2 => parseItems fuel r2 acc2
      | ']' :: r2 => some (.arr acc2, r2)
      | _ => none
    | none => none

end

/-- Model of `json.loads`: parse one document and require only
whitespace to remain. -/
def jsonLoads (s : String) : Option JVal :=
  match parseVal (2 * s.data.length + 4) s.data with
  | some (v, rest) => if (rest.dropWhile isJsonWs).isEmpty then some v else none
  | none => none

/-! ### Model of the embedded-JSON scan in the resolver -/

/-- Index of the first character satisfying the test. -/
def firstIdx (p : Char → Bool) : List Char → Option Nat
  | [] => none
  | c :: rest =>
    if p c then some 0
    else
      match firstIdx p rest with
      | some i => some (i + 1)
      | none => none

/-- Index of the last character satisfying the test. -/
def lastIdx (p : Char → Bool) (cs : List Char) : Option Nat :=
  match firstIdx p cs.reverse with
  | some k => some (cs.length - 1 - k)
  | none => none

/-- Model of `re.search` with the greedy dot-all pattern of a
brace-delimited span (chat.py line 176): the span from the first opening
brace to the last closing brace after it, when both exist. -/
def braceSpan (s : String) : Option String :=
  match firstIdx (fun c => c = lbrace) s.data with
  | none => none
  | some i =>
    let rest := s.data.drop i
    match lastIdx (fun c => c = rbrace) rest with
    | none => none
    | some j => some ⟨rest.take (j + 1)⟩

/-! ### Callback content resolution (chat.py lines 156-195) -/

/-- The attempt of the resolver at an embedded JSON object: the brace-delimited
span of the text, parsed if possible (chat.py lines 176-182; the
`except: pass` leaves it absent on a parse failure). -/
def extractedJson (content_str : String) : Option JVal :=
  match braceSpan content_str with
  | some span => jsonLoads span
  | none => none

/-- The characters of the line marker `I will`. -/
def iWillMark : List Char := "I will".data

/-- The characters of the contracted line marker (capital i, apostrophe,
ell, ell). -/
def iLlMark : List Char := ['I', apos, 'l', 'l']

/-- Is a line a restated-intention line once stripped (chat.py line 190)? -/
def lineIsIntent (line : List Char) : Bool :=
  let t := stripChars line
  listStarts iWillMark t || listStarts iLlMark t

/-- Fallback filtering of intention lines (chat.py lines 188-192): split
on newlines, drop intention lines, join and strip; if that is empty,
keep the unfiltered text. -/
def filterIntentLines (content_str : String) : String :=
  let lines := splitOnChar '\n' content_str.data
  let filtered := lines.filter (fun line => !lineIsIntent line)
  let final_content := stripChars (joinWithChar '\n' filtered)
  if final_content.isEmpty then content_str else ⟨final_content⟩

/-- Processing of a truthy extracted value (chat.py lines 170-192):
strip its string form, prefer the `response` key of a truthy embedded
JSON dict, otherwise filter intention lines. -/
def processContent (v : JVal) : JVal :=
  let content_str := pyStrip (pyStr v)
  match extractedJson content_str with
  | some (JVal.obj o) =>
    if o.isEmpty then JVal.str (filterIntentLines content_str)
    else
      match pyGet o "response" with
      | some r => r
      | none => JVal.str (filterIntentLines content_str)
  | _ => JVal.str (filterIntentLines content_str)

/-- The candidate content: `data.get("output") or data.get("text") or
data.get("response") or data.get("content") or data.get("message")`
(chat.py line 157). -/
def output_content (d : List (String × JVal)) : Option JVal :=
  orChain [pyGet d "output", pyGet d "text", pyGet d "response",
           pyGet d "content", pyGet d "message"]

/-- Content when no candidate key is truthy (chat.py line 195):
`str(data) if data else "No response from AI"`. -/
def fallbackContent (d : List (String × JVal)) : JVal :=
  if d.isEmpty then JVal.str "No response from AI" else JVal.str (pyStr (JVal.obj d))

/-- The value written to the placeholder message content for an
effective dict payload (chat.py lines 170-195). -/
def resolveContent (d : List (String × JVal)) : JVal :=
  match output_content d with
  | some v => if pyTruthy v then processContent v else fallbackContent d
  | none => fallbackContent d

/-- Normalization of the parsed body (chat.py lines 146-149): a
non-empty list is replaced by its first element, an empty list by an
empty dict, anything else passes through. -/
def normalizeData : JVal → JVal
  | .arr (x :: _) => x
  | .arr [] => .obj []
  | v => v

/-! ### Data model (src/backend/app/models/chat.py)

Opaque UUID identifiers are modelled as naturals, timestamps as
naturals.  A message content is a Python value because the resolver may
assign any value found under an embedded `response` key. -/

/-- A row of `chat_messages`. -/
structure ChatMessage where
  id : Nat
  session_id : Nat
  role : String
  content : JVal
  created_at : Nat

/-- A row of `chat_sessions`. -/
structure ChatSession where
  id : Nat
  title : Option String
  cli_id : Option Nat
  path : String
  external_session_id : Option String
  created_at : Nat

/-- A row of `clis`. -/
structure CLIRec where
  id : Nat
  name : String
  description : Option String

/-- The persistent store. -/
structure DB where
  sessions : List ChatSession
  messages : List ChatMessage
  clis : List CLIRec

/-- Lookup `select(ChatMessage).filter(ChatMessage.id == message_id)`
with `scalar_one_or_none`. -/
def findMessage (db : DB) (mid : Nat) : Option ChatMessage :=
  db.messages.find? (fun m => m.id = mid)

/-- Lookup `select(ChatSession).filter(ChatSession.id == session_id)`
with `scalar_one_or_none`. -/
def findSession (db : DB) (sid : Nat) : Option ChatSession :=
  db.sessions.find? (fun s => s.id = sid)

/-- Overwrite the content of the message with the given id. -/
def setMessageContent (db : DB) (mid : Nat) (c : JVal) : DB :=
  { db with messages := db.messages.map (fun m => if m.id = mid then { m with content := c } else m) }

/-- Overwrite the external correlation id of the session with the given id. -/
def setSessionExternalId (db : DB) (sid : Nat) (v : String) : DB :=
  { db with sessions := db.sessions.map (fun s => if s.id = sid then { s with external_session_id := some v } else s) }

/-- Failure modes of a handler: the 404 `HTTPException`, or an uncaught
Python `AttributeError` (`data.get` on a non-dict payload), which FastAPI
surfaces as a server error rather than a success acknowledgment. -/
inductive CbErr where
  | notFound : CbErr
  | attrError : CbErr
deriving DecidableEq

/-- The callback handler `n8n_callback` (chat.py lines 134-198) applied
to an already parsed body value: normalize a list body, 404 when the
message is missing, compute the candidate content (raising on a
non-dict payload), record a truthy `session-id` onto the owning session
when that session exists, then overwrite the message content and commit. -/
def n8n_callback_data (message_id : Nat) (data0 : JVal) (db : DB) : Except CbErr DB :=
  let data := normalizeData data0
  match findMessage db message_id with
  | none => Except.error CbErr.notFound
  | some message =>
    match data with
    | JVal.obj d =>
      let db1 :=
        match pyGet d "session-id" with
        | some esid =>
          if pyTruthy esid then
            match findSession db message.session_id with
            | some _ => setSessionExternalId db message.session_id (pyStr esid)
            | none => db
          else db
        | none => db
      Except.ok (setMessageContent db1 message_id (resolveContent d))
    | _ => Except.error CbErr.attrError

/-- Body decoding (chat.py lines 136-141): `request.json()`, falling
back to wrapping the raw text under an `output` key. -/
def parseBody (body : String) : JVal :=
  match jsonLoads body with
  | some v => v
  | none => JVal.obj [("output", JVal.str body)]

/-- The callback handler on a raw request body. -/
def n8n_callback (message_id : Nat) (body : String) (db : DB) : Except CbErr DB :=
  n8n_callback_data message_id (parseBody body) db

/-- Observable outcome of one callback request: the store afterwards and
the error, if any (`none` stands for the `"status": "success"` reply). -/
structure CbResponse where
  db : DB
  err : Option CbErr

/-- Run the callback endpoint under the scoped-transaction model (spec
section 5): a raise before the commit leaves the store unchanged. -/
def runCallback (message_id : Nat) (body : String) (db : DB) : CbResponse :=
  match n8n_callback message_id body db with
  | Except.ok db2 => ⟨db2, none⟩
  | Except.error e => ⟨db, some e⟩

/-- Run the callback endpoint on an already parsed body value. -/
def runCallbackData (message_id : Nat) (data0 : JVal) (db : DB) : CbResponse :=
  match n8n_callback_data message_id data0 db with
  | Except.ok db2 => ⟨db2, none⟩
  | Except.error e => ⟨db, some e⟩

/-- The content of the stored message with the given id. -/
def contentOf (db : DB) (mid : Nat) : Option JVal :=
  (findMessage db mid).map ChatMessage.content

/-- The external correlation id of the stored session with the given id. -/
def extIdOf (db : DB) (sid : Nat) : Option (Option String) :=
  (findSession db sid).map ChatSession.external_session_id

/-! ### Schemas (src/backend/app/schemas/chat.py) and the session
endpoints (chat.py lines 70-130 and 200-227) -/

/-- The raw JSON fields of a session create/patch request body; `none`
means the field was not supplied by the client. -/
structure SessionPatchBody where
  title : Option String
  cli_id : Option Nat
  path : Option String
  external_session_id : Option String

/-- The validated `SessionCreate` model (schemas/chat.py lines 60-67):
`title` and `cli_id` default to `None`, `path` defaults to the fixed
string `/home/niceiyke`. -/
structure SessionCreate where
  title : Option String
  cli_id : Option Nat
  path : String
  external_session_id : Option String

/-- Pydantic validation of a request body against `SessionCreate`:
missing fields receive their schema defaults. -/
def validateSessionCreate (b : SessionPatchBody) : SessionCreate :=
  { title := b.title
    cli_id := b.cli_id
    path := b.path.getD "/home/niceiyke"
    external_session_id := b.external_session_id }

/-- Truthiness of an optional string under Python `if x:` — `None` and
the empty string are falsy. -/
def optStrTruthy : Option String → Bool
  | none => false
  | some s => s != ""

/-- The `update_session` handler (chat.py lines 200-216): 404 when the
session is missing; otherwise assign each of title, cli_id and path when
the model field is truthy (a UUID object is always truthy), and commit. -/
def update_session (session_id : Nat) (session_in : SessionCreate) (db : DB) : Except CbErr DB :=
  match findSession db session_id with
  | none => Except.error CbErr.notFound
  | some session =>
    let s1 := if optStrTruthy session_in.title then { session with title := session_in.title } else session
    let s2 := if session_in.cli_id.isSome then { s1 with cli_id := session_in.cli_id } else s1
    let s3 := if session_in.path != "" then { s2 with path := session_in.path } else s2
    Except.ok { db with sessions := db.sessions.map (fun x => if x.id = session_id then s3 else x) }

/-- An attachment in a message create body (schemas/chat.py lines 10-16);
carried for schema fidelity, unused by `send_message` in chat.py. -/
structure AttachmentCreate where
  file_name : String
  mime_type : String
  data : String

/-- The `MessageCreate` body (schemas/chat.py lines 6-8 and 35-36). -/
structure MessageCreate where
  role : String
  content : String
  attachments : Option (List AttachmentCreate)

/-- The payload posted to the n8n webhook (chat.py lines 109-120): base
fields, plus the external session id under two keys when present. -/
def triggerPayload (cli_name : String) (session_id : Nat) (prompt : String)
    (is_resume : Bool) (path : String) (aiMsgId : Nat) (ext : Option String) :
    List (String × JVal) :=
  let base := [("clitype", JVal.str cli_name),
               ("session_id", JVal.str (toString session_id)),
               ("prompt", JVal.str prompt),
               ("is_resume", JVal.bool is_resume),
               ("path", JVal.str path),
               ("callback_url", JVal.str ("https://api-code-cli.wordlyte.com/api/v1/chat/callback/" ++ toString aiMsgId))]
  match ext with
  | some e => base ++ [("session-id", JVal.str e), ("external_session_id", JVal.str e)]
  | none => base

/-- Outcome of `send_message`: the store after the commit, the
placeholder message returned to the client, and the payload handed to
the fire-and-forget dispatch task (`none` when no webhook is
configured).  The dispatch itself performs no persistence. -/
structure SendResult where
  db : DB
  returned : ChatMessage
  dispatch : Option (List (String × JVal))

/-- The `send_message` handler (chat.py lines 70-130): 404 when the
session is missing; otherwise count prior ai messages for the resume
flag, resolve the CLI profile name, add the user message and the
placeholder ai message (content `Thinking...`), commit, and only then
construct the dispatch payload when a webhook URL is configured.  Fresh
row ids and the creation timestamp are passed explicitly. -/
def send_message (session_id : Nat) (message_in : MessageCreate) (db : DB)
    (userMsgId aiMsgId now : Nat) (webhook : Option String) : Except CbErr SendResult :=
  match findSession db session_id with
  | none => Except.error CbErr.notFound
  | some session =>
    let ai_msg_count := (db.messages.filter (fun m => m.session_id = session_id && m.role = "ai")).length
    let is_resume := ai_msg_count > 0
    let cli_name :=
      match session.cli_id with
      | some cid =>
        match db.clis.find? (fun c => c.id = cid) with
        | some cli => cli.name
        | none => "default"
      | none => "default"
    let user_msg : ChatMessage := ⟨userMsgId, session_id, "user", JVal.str message_in.content, now⟩
    let ai_msg : ChatMessage := ⟨aiMsgId, session_id, "ai", JVal.str "Thinking...", now⟩
    let db2 : DB := { db with messages := db.messages ++ [user_msg, ai_msg] }
    let dispatch := webhook.map (fun _ =>
      triggerPayload cli_name session_id message_in.content (decide is_resume) session.path aiMsgId session.external_session_id)
    Except.ok ⟨db2, ai_msg, dispatch⟩

/-- The `delete_session` handler (chat.py lines 218-227): 404 when the
session is missing; otherwise delete the session, cascading deletion of
its messages (models/chat.py line 29, `cascade="all, delete-orphan"`). -/
def delete_session (session_id : Nat) (db : DB) : Except CbErr DB :=
  match findSession db session_id with
  | none => Except.error CbErr.notFound
  | some _ =>
    Except.ok { db with
      sessions := db.sessions.filter (fun s => !(s.id = session_id : Bool))
      messages := db.messages.filter (fun m => !(m.session_id = session_id : Bool)) }

/-! ### Concrete fixtures used by counterexamples and witnesses -/

/-- A stored session with a previously recorded external correlation id. -/
def sess10 : ChatSession := ⟨10, none, none, "/home/niceiyke", some "old", 0⟩

/-- The pending placeholder message owned by `sess10`. -/
def msg1 : ChatMessage := ⟨1, 10, "ai", JVal.str "Thinking...", 0⟩

/-- A store with one session and its placeholder message. -/
def db0 : DB := ⟨[sess10], [msg1], []⟩

/-- The empty store. -/
def dbEmpty : DB := ⟨[], [], []⟩

/-- C4: a callback addressed to a message id with no stored message
fails with the NotFound condition, and the store afterwards is the store
before: the 404 is raised before any mutation, and the scoped
transaction commits nothing. -/
theorem c4_callback_notfound_unchanged (mid : Nat) (body : String) (db : DB)
    (h : findMessage db mid = none) :
    runCallback mid body db = ⟨db, some CbErr.notFound⟩ := by
  simp [runCallback, n8n_callback, n8n_callback_data, h]

/-- C4 witness: a concrete callback against the empty store 404s and
leaves it empty. -/
theorem c4_witness :
    findMessage dbEmpty 7 = none ∧
    runCallback 7 "ignored" dbEmpty = ⟨dbEmpty, some CbErr.notFound⟩ :=
  ⟨rfl, c4_callback_notfound_unchanged 7 "ignored" dbEmpty rfl⟩

/-- C2 counterexample: the claim promises a success acknowledgment for
every body shape once the message exists, but a body that is a valid
JSON scalar (here the JSON string `"hi"`) normalizes to a non-dict, and
`data.get` then raises an AttributeError: the HTTP call fails instead of
acknowledging success. -/
theorem c2_counterexample :
    (findMessage db0 1).isSome = true ∧
    runCallback 1 "\"hi\"" db0 = ⟨db0, some CbErr.attrError⟩ :=
  ⟨rfl, rfl⟩

/-- C2 amended: for every body whose parsed-and-normalized payload is a
dict — which covers JSON object bodies, array bodies whose first element
is an object, empty array bodies, and unparseable text bodies (wrapped
under a synthetic `output` key) — the handler acknowledges success once
the message exists, whatever the dict contains. -/
theorem c2_dict_body_succeeds (mid : Nat) (d0 : JVal) (db : DB)
    (kvs : List (String × JVal))
    (hm : (findMessage db mid).isSome = true)
    (hd : normalizeData d0 = JVal.obj kvs) :
    (runCallbackData mid d0 db).err = none := by
  cases hfind : findMessage db mid with
  | none => rw [hfind] at hm; cases hm
  | some m => simp [runCallbackData, n8n_callback_data, hfind, hd]

/-- C2 witness: a concrete dict payload against the stored message is
acknowledged. -/
theorem c2_witness :
    (findMessage db0 1).isSome = true ∧
    normalizeData (JVal.obj []) = JVal.obj [] ∧
    (runCallbackData 1 (JVal.obj []) db0).err = none :=
  ⟨rfl, rfl, c2_dict_body_succeeds 1 (JVal.obj []) db0 [] rfl rfl⟩

/-- C9: deleting an existing session deletes it and cascades deletion of
its messages: afterwards no stored message belongs to that session and
the session itself is gone, while messages of other sessions and other
sessions are retained. -/
theorem c9_delete_cascades (db : DB) (sid : Nat) (s : ChatSession)
    (h : findSession db sid = some s) :
    delete_session sid db = Except.ok
      { db with sessions := db.sessions.filter (fun x => !(x.id = sid : Bool))
                messages := db.messages.filter (fun m => !(m.session_id = sid : Bool)) }
    ∧ (∀ m ∈ db.messages.filter (fun m => !(m.session_id = sid : Bool)), m.session_id ≠ sid)
    ∧ (∀ x ∈ db.sessions.filter (fun x => !(x.id = sid : Bool)), x.id ≠ sid)
    ∧ (∀ m ∈ db.messages, m.session_id ≠ sid → m ∈ db.messages.filter (fun m => !(m.session_id = sid : Bool)))
    ∧ (∀ x ∈ db.sessions, x.id ≠ sid → x ∈ db.sessions.filter (fun x => !(x.id = sid : Bool))) := by
  refine ⟨by simp [delete_session, h], ?_, ?_, ?_, ?_⟩
  · intro m hm
    simp only [List.mem_filter, Bool.not_eq_true', decide_eq_false_iff_not] at hm
    exact hm.2
  · intro x hx
    simp only [List.mem_filter, Bool.not_eq_true', decide_eq_false_iff_not] at hx
    exact hx.2
  · intro m hm hne
    simp only [List.mem_filter, Bool.not_eq_true', decide_eq_false_iff_not]
    exact ⟨hm, hne⟩
  · intro x hx hne
    simp only [List.mem_filter, Bool.not_eq_true', decide_eq_false_iff_not]
    exact ⟨hx, hne⟩

/-- C9 witness: deleting the concrete session removes it and its
message. -/
theorem c9_witness :
    delete_session 10 db0 = Except.ok ⟨[], [], []⟩ :=
  (c9_delete_cascades db0 10 sess10 rfl).1

/-- A stored session with a custom working path, target of the patch
counterexample. -/
def patchSess : ChatSession := ⟨2, some "t", none, "/custom", none, 0⟩

/-- A store holding only `patchSess`. -/
def patchDb : DB := ⟨[patchSess], [], []⟩

/-- C3 counterexample: a PATCH body that supplies only a title — the
path field is not supplied by the client — still overwrites the stored
custom path, because the schema fills the omitted path with its default
`/home/niceiyke` and the handler sees a non-empty path.  The claim that
an unsupplied field leaves the stored field unchanged is false for
`path`. -/
theorem c3_counterexample :
    update_session 2 (validateSessionCreate ⟨some "X", none, none, none⟩) patchDb
      = Except.ok ⟨[⟨2, some "X", none, "/home/niceiyke", none, 0⟩], [], []⟩
    ∧ ("/home/niceiyke" : String) ≠ "/custom" :=
  ⟨rfl, by decide⟩

/-- Modelled from the amended claim: the session produced by a partial
patch.  Title and cli_id behave as the claim states (a supplied
non-empty title overwrites, a supplied cli_id overwrites, anything else
leaves the stored value); a supplied non-empty path overwrites, a
supplied empty path leaves the stored path, and an omitted path resets
the stored path to the schema default `/home/niceiyke`. -/
def specPatchedSession (s : ChatSession) (b : SessionPatchBody) : ChatSession :=
  { s with
    title := match b.title with
      | some t => if t = "" then s.title else some t
      | none => s.title
    cli_id := match b.cli_id with
      | some c => some c
      | none => s.cli_id
    path := match b.path with
      | some p => if p = "" then s.path else p
      | none => "/home/niceiyke" }

/-- C3 amended: for an existing session, PATCH overwrites exactly the
fields described by `specPatchedSession` — non-empty title and supplied
cli_id overwrite, empty or omitted title and omitted cli_id are ignored,
a supplied empty path is ignored, but an omitted path is reset to the
schema default rather than left unchanged — and a missing session id
yields the NotFound condition. -/
theorem c3_patch_update (db : DB) (sid : Nat) (s : ChatSession) (b : SessionPatchBody)
    (h : findSession db sid = some s) :
    update_session sid (validateSessionCreate b) db
      = Except.ok { db with sessions := db.sessions.map (fun x => if x.id = sid then specPatchedSession s b else x) }
    ∧ ∀ (db2 : DB) (sid2 : Nat), findSession db2 sid2 = none →
        update_session sid2 (validateSessionCreate b) db2 = Except.error CbErr.notFound := by
  constructor
  · obtain ⟨bt, bc, bp, be⟩ := b
    simp only [update_session, h, validateSessionCreate, specPatchedSession]
    cases bt with
    | none =>
      cases bc <;> cases bp <;> simp [optStrTruthy] <;>
        first
        | rfl
        | (rename_i p; by_cases hp : p = "" <;> simp [hp])
    | some t =>
      by_cases ht : t = "" <;>
        cases bc <;> cases bp <;> simp [optStrTruthy, ht] <;>
          first
          | rfl
          | (rename_i p; by_cases hp : p = "" <;> simp [hp])
  · intro db2 sid2 h2
    simp [update_session, h2]

/-- C3 witness: a patch supplying only a new path overwrites the path
and leaves the stored title. -/
theorem c3_witness :
    update_session 2 (validateSessionCreate ⟨none, none, some "/new", none⟩) patchDb
      = Except.ok ⟨[⟨2, some "t", none, "/new", none, 0⟩], [], []⟩ :=
  (c3_patch_update patchDb 2 patchSess ⟨none, none, some "/new", none⟩ rfl).1

/-- C6: callback resolution is a function of the payload, and when the
extracted text contains no embedded JSON object, the resolver filters
out restated-intention lines and takes the remainder, falling back to
the unfiltered text when the filtering empties it — the behaviour of
`filterIntentLines`, whose definition carries exactly that policy. -/
theorem c6_intent_filtering (v : JVal)
    (h : extractedJson (pyStrip (pyStr v)) = none) :
    processContent v = JVal.str (filterIntentLines (pyStrip (pyStr v))) := by
  simp only [processContent, h]

/-- C6 witness: the spec example resolves to the non-intention line, and
a payload that is nothing but an intention line falls back to the
unfiltered text. -/
theorem c6_witness :
    extractedJson (pyStrip (pyStr (JVal.str "I will check.\nHello there."))) = none ∧
    resolveContent [("output", JVal.str "I will check.\nHello there.")] = JVal.str "Hello there." ∧
    resolveContent [("output", JVal.str "I will check.")] = JVal.str "I will check." :=
  ⟨rfl, c6_intent_filtering (JVal.str "I will check.\nHello there.") rfl,
    c6_intent_filtering (JVal.str "I will check.") rfl⟩

/-- C7: when the brace-delimited span of the extracted text parses as a
JSON object carrying a `response` key, the value under that key becomes the
final content, in preference to the surrounding text. -/
theorem c7_embedded_response (v : JVal) (span : String)
    (o : List (String × JVal)) (r : JVal)
    (hb : braceSpan (pyStrip (pyStr v)) = some span)
    (hj : jsonLoads span = some (JVal.obj o))
    (hr : pyGet o "response" = some r) :
    processContent v = r := by
  have hext : extractedJson (pyStrip (pyStr v)) = some (JVal.obj o) := by
    simp [extractedJson, hb, hj]
  cases o with
  | nil => simp [pyGet] at hr
  | cons p ps => simp only [processContent, hext, List.isEmpty_cons, hr]; rfl

/-- The spec example body for the embedded-JSON case. -/
def c7span : String := "\x7b\"response\": \"42\"\x7d"

/-- C7 witness: the spec example resolves to `42`. -/
theorem c7_witness :
    braceSpan (pyStrip (pyStr (JVal.str c7span))) = some c7span ∧
    jsonLoads c7span = some (JVal.obj [("response", JVal.str "42")]) ∧
    resolveContent [("output", JVal.str c7span)] = JVal.str "42" :=
  ⟨rfl, rfl,
    c7_embedded_response (JVal.str c7span) c7span [("response", JVal.str "42")]
      (JVal.str "42") rfl rfl rfl⟩

/-- Updating the external id of the matching sessions commutes with the
id-based lookup. -/
lemma findSession_setExternalId (l : List ChatSession) (sid : Nat) (v : String) :
    (l.map (fun x => if x.id = sid then { x with external_session_id := some v } else x)).find?
        (fun x => x.id = sid)
      = (l.find? (fun x => x.id = sid)).map
        (fun x => { x with external_session_id := some v }) := by
  induction l with
  | nil => rfl
  | cons x xs ih =>
    by_cases hx : x.id = sid
    · simp [List.find?_cons, hx]
    · simp [List.find?_cons, hx, ih]

/-- Overwriting the content of the matching messages commutes with the
id-based lookup. -/
lemma findMessage_setContent (l : List ChatMessage) (mid : Nat) (c : JVal) :
    (l.map (fun m => if m.id = mid then { m with content := c } else m)).find?
        (fun m => m.id = mid)
      = (l.find? (fun m => m.id = mid)).map
        (fun m => { m with content := c }) := by
  induction l with
  | nil => rfl
  | cons m ms ih =>
    by_cases hm : m.id = mid
    · simp [List.find?_cons, hm]
    · simp [List.find?_cons, hm, ih]

/-- C8: whenever an effective dict payload carries a truthy `session-id`
value, a successful callback writes its string form onto the owning
session, overwriting whatever external correlation id was stored before
(the store `db` is arbitrary, so the last writer wins). -/
theorem c8_session_correlation (mid : Nat) (d0 : JVal) (db : DB)
    (msg : ChatMessage) (kvs : List (String × JVal)) (esid : JVal)
    (hm : findMessage db mid = some msg)
    (hd : normalizeData d0 = JVal.obj kvs)
    (hs : pyGet kvs "session-id" = some esid)
    (ht : pyTruthy esid = true)
    (hsess : (findSession db msg.session_id).isSome = true) :
    (runCallbackData mid d0 db).err = none ∧
    extIdOf (runCallbackData mid d0 db).db msg.session_id
      = some (some (pyStr esid)) := by
  cases hfind : findSession db msg.session_id with
  | none => rw [hfind] at hsess; cases hsess
  | some s =>
    constructor
    · simp [runCallbackData, n8n_callback_data, hm, hd, hs, ht, hfind]
    · simp only [runCallbackData, n8n_callback_data, hm, hd, hs, ht, if_pos, hfind]
      simp only [extIdOf, findSession, setMessageContent, setSessionExternalId]
      rw [findSession_setExternalId]
      have : db.sessions.find? (fun x => x.id = msg.session_id) = some s := hfind
      rw [this]
      rfl

/-- C8 witness: the spec example — a callback payload carrying
`session-id: ext-123` against a session whose stored external id was
`old` succeeds and leaves the external id `ext-123`. -/
theorem c8_witness :
    sess10.external_session_id = some "old" ∧
    (runCallbackData 1 (JVal.obj [("session-id", JVal.str "ext-123")]) db0).err = none ∧
    extIdOf (runCallbackData 1 (JVal.obj [("session-id", JVal.str "ext-123")]) db0).db 10
      = some (some "ext-123") := by
  refine ⟨rfl, ?_⟩
  exact c8_session_correlation 1 (JVal.obj [("session-id", JVal.str "ext-123")]) db0
    msg1 [("session-id", JVal.str "ext-123")] (JVal.str "ext-123") rfl rfl rfl rfl rfl

/-- C10: an effective dict payload carrying a truthy `session-id` but
none of the five content keys still has its correlation id written onto
the owning session — the write is independent of content extraction —
and the placeholder content becomes the stringification of the whole
payload dict, the `session-id` entry included. -/
theorem c10_sessionid_without_content (mid : Nat) (d0 : JVal) (db : DB)
    (msg : ChatMessage) (kvs : List (String × JVal)) (esid : JVal)
    (hm : findMessage db mid = some msg)
    (hd : normalizeData d0 = JVal.obj kvs)
    (h1 : pyGet kvs "output" = none)
    (h2 : pyGet kvs "text" = none)
    (h3 : pyGet kvs "response" = none)
    (h4 : pyGet kvs "content" = none)
    (h5 : pyGet kvs "message" = none)
    (hs : pyGet kvs "session-id" = some esid)
    (ht : pyTruthy esid = true)
    (hsess : (findSession db msg.session_id).isSome = true) :
    (runCallbackData mid d0 db).err = none ∧
    contentOf (runCallbackData mid d0 db).db mid
      = some (JVal.str (pyStr (JVal.obj kvs))) ∧
    extIdOf (runCallbackData mid d0 db).db msg.session_id
      = some (some (pyStr esid)) := by
  have hk : kvs.isEmpty = false := by
    cases kvs with
    | nil => simp [pyGet] at hs
    | cons p ps => rfl
  have hres : resolveContent kvs = JVal.str (pyStr (JVal.obj kvs)) := by
    simp [resolveContent, output_content, h1, h2, h3, h4, h5, orChain, fallbackContent, hk]
  cases hfind : findSession db msg.session_id with
  | none => rw [hfind] at hsess; cases hsess
  | some s =>
    refine ⟨?_, ?_, ?_⟩
    · simp [runCallbackData, n8n_callback_data, hm, hd, hs, ht, hfind]
    · simp only [runCallbackData, n8n_callback_data, hm, hd, hs, ht, if_pos, hfind]
      simp only [contentOf, findMessage, setMessageContent, setSessionExternalId]
      rw [findMessage_setContent]
      have : db.messages.find? (fun m => m.id = mid) = some msg := hm
      rw [this]
      simp [hres]
    · simp only [runCallbackData, n8n_callback_data, hm, hd, hs, ht, if_pos, hfind]
      simp only [extIdOf, findSession, setMessageContent, setSessionExternalId]
      rw [findSession_setExternalId]
      have : db.sessions.find? (fun x => x.id = msg.session_id) = some s := hfind
      rw [this]
      rfl

/-- C10 witness: a payload holding only `session-id: ext-999` updates
the session correlation id and stores the stringified payload as the
message content. -/
theorem c10_witness :
    (runCallbackData 1 (JVal.obj [("session-id", JVal.str "ext-999")]) db0).err = none ∧
    contentOf (runCallbackData 1 (JVal.obj [("session-id", JVal.str "ext-999")]) db0).db 1
      = some (JVal.str (pyStr (JVal.obj [("session-id", JVal.str "ext-999")]))) ∧
    extIdOf (runCallbackData 1 (JVal.obj [("session-id", JVal.str "ext-999")]) db0).db 10
      = some (some "ext-999") :=
  c10_sessionid_without_content 1 (JVal.obj [("session-id", JVal.str "ext-999")]) db0
    msg1 [("session-id", JVal.str "ext-999")] (JVal.str "ext-999")
    rfl rfl rfl rfl rfl rfl rfl rfl rfl rfl

/-- C5: posting a user message to an existing session appends exactly
two messages to the store — first the user message with the posted
content, then the placeholder ai message with the pending sentinel
`Thinking...` — and returns the placeholder.  The committed store does
not mention the webhook argument at all: the same rows are stored
whether or not a webhook is configured, and the dispatch payload carries
no persistence, so a failed dispatch cannot change them. -/
theorem c5_two_messages (sid : Nat) (mi : MessageCreate) (db : DB)
    (u a t : Nat) (w : Option String) (s : ChatSession)
    (h : findSession db sid = some s) :
    send_message sid mi db u a t w = Except.ok
      ⟨{ db with messages := db.messages
            ++ [⟨u, sid, "user", JVal.str mi.content, t⟩,
                ⟨a, sid, "ai", JVal.str "Thinking...", t⟩] },
       ⟨a, sid, "ai", JVal.str "Thinking...", t⟩,
       w.map (fun _ => triggerPayload
          (match s.cli_id with
           | some cid =>
             match db.clis.find? (fun c => c.id = cid) with
             | some cli => cli.name
             | none => "default"
           | none => "default")
          sid mi.content
          (decide ((db.messages.filter (fun m => m.session_id = sid && m.role = "ai")).length > 0))
          s.path a s.external_session_id)⟩ := by
  simp [send_message, h]

/-- C5 witness: a concrete post against the stored session appends the
user message and the placeholder, with no webhook configured. -/
theorem c5_witness :
    send_message 10 ⟨"user", "hi", none⟩ db0 2 3 5 none = Except.ok
      ⟨⟨[sess10], [msg1, ⟨2, 10, "user", JVal.str "hi", 5⟩,
                   ⟨3, 10, "ai", JVal.str "Thinking...", 5⟩], []⟩,
       ⟨3, 10, "ai", JVal.str "Thinking...", 5⟩, none⟩ :=
  c5_two_messages 10 ⟨"user", "hi", none⟩ db0 2 3 5 none sess10 rfl

/-- The ordered preference list of content keys (chat.py line 157). -/
def contentKeys : List String := ["output", "text", "response", "content", "message"]

/-- Follows the words of the spec: walk the content keys in order and
return the value of the first key that is non-empty (truthy); none
otherwise. -/
def firstNonEmptyKey (keys : List String) (kvs : List (String × JVal)) : Option JVal :=
  match keys with
  | [] => none
  | k :: rest =>
    match pyGet kvs k with
    | some v => if pyTruthy v then some v else firstNonEmptyKey rest kvs
    | none => firstNonEmptyKey rest kvs

/-- The Python `or` chain over key lookups selects exactly the first
truthy key value, and a falsy chain result lands in the fallback. -/
lemma orChain_firstNonEmpty (kvs : List (String × JVal)) :
    ∀ keys : List String,
      (match orChain (keys.map (fun k => pyGet kvs k)) with
        | some v => if pyTruthy v then processContent v else fallbackContent kvs
        | none => fallbackContent kvs)
      = (match firstNonEmptyKey keys kvs with
        | some v => processContent v
        | none => fallbackContent kvs) := by
  intro keys
  induction keys with
  | nil => rfl
  | cons k rest ih =>
    cases rest with
    | nil =>
      simp only [List.map, orChain, firstNonEmptyKey]
      cases pyGet kvs k with
      | none => rfl
      | some v => by_cases hv : pyTruthy v <;> simp [hv]
    | cons k2 rest2 =>
      simp only [List.map, orChain, firstNonEmptyKey]
      cases pyGet kvs k with
      | none => exact ih
      | some v =>
        by_cases hv : pyTruthy v
        · simp [hv]
        · simp only [hv, Bool.false_eq_true, if_false]
          exact ih

/-- C1: for every effective dict payload, the resolved content is
driven by the ordered key preference written in the spec — the first of
`output`, `text`, `response`, `content`, `message` holding a non-empty
(truthy) value wins and is processed into the final content — and when
no key yields a value the content is the stringification of the whole
payload, or the fixed sentinel `No response from AI` when the payload is
empty. -/
theorem c1_ordered_preference (kvs : List (String × JVal)) :
    resolveContent kvs
      = match firstNonEmptyKey contentKeys kvs with
        | some v => processContent v
        | none =>
          if kvs.isEmpty then JVal.str "No response from AI"
          else JVal.str (pyStr (JVal.obj kvs)) := by
  have h := orChain_firstNonEmpty kvs contentKeys
  simp only [contentKeys, List.map] at h
  simpa [resolveContent, output_content, fallbackContent] using h
